import Mathlib

set_option maxRecDepth 4000

/-!
Verification of the real-time audio mixing backend
(`psychopy/sound/backend_sounddevice.py`).

The Python source is shallowly embedded below.  Times and sample values
are modelled with exact rationals (`ℚ`); the tone generator's sample
values, which the source computes with `np.sin`, are modelled with
`Real.sin` in a separate value-level layer.  Python lists mutated in
place become explicit state passing; Python exceptions become an error
component threaded through each operation (state mutations that happen
before a raise are preserved, as in Python).
-/

namespace SoundDevice

/-- Python `int()` truncation toward zero, applied to a float/rational. -/
def truncQ (q : ℚ) : ℤ := if q < 0 then ⌈q⌉ else ⌊q⌋

/-- Python-2 `round`: round half away from zero (all uses in the claims
evaluate it at integral arguments, where every rounding convention
agrees). -/
def pyRound (q : ℚ) : ℤ := if q < 0 then -⌊-q + 1/2⌋ else ⌊q + 1/2⌋

/-- Normalisation of one slice endpoint against a sequence of length
`len`, as Python/numpy do for `a[i:j]`: negative indices count from the
end, and endpoints are clamped into `[0, len]`. -/
def pyNorm (len : ℕ) (x : ℤ) : ℤ := if x < 0 then max 0 ((len : ℤ) + x) else min x (len : ℤ)

/-- A numpy-style sample array: a length plus per-frame values (for a
stereo array the value stands for one frame; only frame counts and the
mono channel are consumed by the claims). -/
structure Arr where
  len : ℕ
  val : ℕ → ℚ

/-- `a[i:j]` on a numpy array (frame-major first axis). -/
def pySliceArr (a : Arr) (i j : ℤ) : Arr :=
  let i' := (pyNorm a.len i).toNat
  let j' := (pyNorm a.len j).toNat
  ⟨j' - i', fun k => a.val (i' + k)⟩

/-- For non-negative, ordered endpoints the slice length is bounded by
the endpoint difference.  (With a negative stop index Python wraps
around from the end of the array and the bound genuinely fails.) -/
theorem pySliceArr_len_le (a : Arr) (i j : ℤ) (hi : 0 ≤ i) (hij : i ≤ j) :
    (pySliceArr a i j).len ≤ (j - i).toNat := by
  unfold pySliceArr pyNorm
  dsimp only
  split <;> split <;> omega

/-- Truncation toward zero never exceeds a natural bound on the input. -/
theorem truncQ_le_nat (q : ℚ) (c : ℕ) (h : q ≤ (c : ℚ)) : truncQ q ≤ (c : ℤ) := by
  unfold truncQ
  split
  · calc ⌈q⌉ ≤ ⌈(0 : ℚ)⌉ := Int.ceil_le_ceil (le_of_lt (by assumption))
    _ = 0 := by simp
    _ ≤ (c : ℤ) := by positivity
  · calc ⌊q⌋ ≤ ⌊(c : ℚ)⌋ := Int.floor_le_floor h
    _ = (c : ℤ) := Int.floor_natCast c

/-- Exceptions that the embedded code can raise. -/
inductive Err where
  | soundFormat   -- `exceptions.SoundFormatError`
  | unboundLocal  -- `UnboundLocalError` (`block` never assigned, lines 372-375)
  | valueError    -- `list.remove(x)` with `x` absent
  deriving DecidableEq, Repr

deriving instance DecidableEq for Except

/-- `self.sourceType` together with the `preBuffer` mode that selects the
`_nextBlock` branch: `freq` (line 377), `fileStream` = file with
`preBuffer == 0` (line 363), `arr` = raw array or file fully pre-decoded
with `preBuffer == -1` (line 368). -/
inductive SourceType where
  | freq
  | fileStream
  | arr
  deriving DecidableEq, Repr

/-- `psychopy.constants` status values used by the sound. -/
inductive Status where
  | notStarted
  | playing
  | paused
  | stopped
  | finished
  deriving DecidableEq, Repr

/-- The mutable state of one `SoundDeviceSound`. -/
structure Sound where
  sourceType : SourceType
  sampleRate : ℚ       -- `self.sampleRate` (an int in the source)
  blockSize : ℕ        -- `self.blockSize`
  stopTime : ℚ         -- `self.stopTime`
  secs : ℚ             -- `self.secs` (tone duration)
  freq : ℚ             -- `self.freq` (tone frequency)
  t : ℚ                -- `self.t` (cursor, in seconds)
  frameN : ℤ           -- `self.frameN`
  loops : ℤ            -- `self.loops`
  loopsFinished : ℤ    -- `self._loopsFinished`
  status : Status      -- `self.status`
  stereo : ℤ           -- `self.stereo` (-1 auto, 0 mono, 1 stereo)
  sndArr : Arr         -- `self.sndArr` (for `arr` sources)
  fileFrames : ℕ       -- total frames in the open file (for `fileStream`)
  filePos : ℕ          -- the open file's read cursor (for `fileStream`)

/-- One `_SoundStream`'s mutable state: the `self.sounds` play list
(sound identifiers, in list order) plus the state of every sound. -/
structure Mixer where
  sounds : List ℕ
  store : ℕ → Sound

def Mixer.update (m : Mixer) (id : ℕ) (s : Sound) : Mixer :=
  ⟨m.sounds, fun j => if j = id then s else m.store j⟩

/-- `_SoundStream.remove` (lines 162-164): remove by identity if
present, no-op if absent. -/
def streamRemove (id : ℕ) (m : Mixer) : Mixer :=
  if id ∈ m.sounds then ⟨m.sounds.eraseP (· == id), m.store⟩ else m

/-- Raw Python `list.remove` (callback line 142): removes the first
occurrence, raises `ValueError` when absent. -/
def pyListRemove (id : ℕ) (l : List ℕ) : Except Err (List ℕ) :=
  if id ∈ l then .ok (l.eraseP (· == id)) else .error .valueError

/-- `SoundDeviceSound.seek` (lines 397-401): set `t`, recompute
`frameN`, and reposition the file read cursor when a file is open
(only `fileStream` sounds keep their file open). -/
def Sound.seek (s : Sound) (t : ℚ) : Sound :=
  let fN := pyRound (t * s.sampleRate)
  { s with t := t, frameN := fN,
           filePos := if s.sourceType = .fileStream then fN.toNat else s.filePos }

/-- `SoundDeviceSound.stop` (lines 353-358). -/
def stop (id : ℕ) (m : Mixer) : Mixer :=
  let m₁ := streamRemove id m
  let s₁ := (m₁.store id).seek 0
  m₁.update id { s₁ with status := .stopped }

/-- `SoundDeviceSound._EOS` (lines 403-413).  Note that the removal from
the stream and the transition to `finished` (lines 412-413) are executed
unconditionally, on every end-of-stream, whatever the loop budget. -/
def eos (id : ℕ) (m : Mixer) : Mixer :=
  let s := m.store id
  let m₁ := m.update id { s with loopsFinished := s.loopsFinished + 1 }
  let m₂ :=
    if (m₁.store id).loops = 0 then stop id m₁
    else if (m₁.store id).loops > 0 ∧ (m₁.store id).loopsFinished ≥ (m₁.store id).loops then
      stop id m₁
    else m₁
  let m₃ := streamRemove id m₂
  m₃.update id { m₃.store id with status := .finished }

/-- `self.t += self.blockSize/float(self.sampleRate)` (line 394),
applied to the sound's current (possibly EOS-reset) cursor. -/
def bumpT (id : ℕ) (m : Mixer) : Mixer :=
  let s := m.store id
  m.update id { s with t := s.t + (s.blockSize : ℚ) / s.sampleRate }

/-- `framesLeft = (self.stopTime-self.t)*self.sampleRate` (line 361). -/
def framesLeft (s : Sound) : ℚ := (s.stopTime - s.t) * s.sampleRate

/-- `nFrames = min(self.blockSize, framesLeft)` (line 362). -/
def nFramesQ (s : Sound) : ℚ := min (s.blockSize : ℚ) (framesLeft s)

/-- The array-branch slice of `_nextBlock` (lines 371-375):
`ii = int(round(self.t * self.sampleRate))`, then
`self.sndArr[ii:ii+nFrames]` (identical frame count for the 2-D stereo
and 1-D mono slice). -/
def arrBlockAt (s : Sound) (t : ℚ) : Arr :=
  let ii := pyRound (t * s.sampleRate)
  pySliceArr s.sndArr ii (ii + truncQ (nFramesQ { s with t := t }))

/-- The frame count `self.sndFile.read(nFrames)` (line 365) actually
returns: python-soundfile checks the requested count *before* integer
conversion — a negative `frames` (and with the default `stopTime = -1`
the budget `min(blockSize, (stopTime-t)*rate)` is negative) means
"read the entire rest of the file", i.e. `self.frames - self.tell()`
frames; a non-negative request reads at most the material remaining,
the fractional request being truncated by the output-array creation. -/
def fsRead (s : Sound) : ℕ :=
  if nFramesQ s < 0 then s.fileFrames - s.filePos
  else min (truncQ (nFramesQ s)).toNat (s.fileFrames - s.filePos)

/-- `SoundDeviceSound._nextBlock` (lines 360-395).  Returns the number
of frames produced (`len(dat)` as seen by the callback) and the
post-state.  Python mutations performed before a raise are kept, hence
the always-returned mixer.  The `freq` branch calls `_EOS` *inside* the
pull when the block crosses `secs` (line 392) and then still advances
`t` (line 394); the statement `block[tRange > self.secs] == 0`
(line 390) is a comparison, not an assignment, so it is a no-op and has
no counterpart here. -/
def nextBlock (id : ℕ) (m : Mixer) : Except Err ℕ × Mixer :=
  let s := m.store id
  match s.sourceType with
  | .fileStream =>
      -- `block = self.sndFile.read(nFrames)` (line 365), advancing the
      -- file's read cursor by the frames actually read.
      let n := fsRead s
      (.ok n, bumpT id (m.update id { s with filePos := s.filePos + n }))
  | .arr =>
      if s.stereo = 1 ∨ s.stereo = 0 then
        (.ok (arrBlockAt s s.t).len, bumpT id m)
      else
        -- neither `if self.stereo == 1` nor `elif self.stereo == 0`
        -- assigns `block`; `self.t` is still advanced (line 394) before
        -- `return block` raises `UnboundLocalError`.
        (.error .unboundLocal, bumpT id m)
  | .freq =>
      let stopT := s.t + (s.blockSize : ℚ) / s.sampleRate
      if s.secs < stopT then (.ok s.blockSize, bumpT id (eos id m))
      else (.ok s.blockSize, bumpT id m)

theorem length_eraseP_le (p : ℕ → Bool) : ∀ l : List ℕ, (l.eraseP p).length ≤ l.length := by
  intro l
  induction l with
  | nil => simp [List.eraseP]
  | cons a l ih =>
    by_cases h : p a = true
    · simp [List.eraseP_cons, h]
    · simp only [List.eraseP_cons, h]
      simpa using Nat.succ_le_succ ih

theorem streamRemove_sounds_le (id : ℕ) (m : Mixer) :
    (streamRemove id m).sounds.length ≤ m.sounds.length := by
  unfold streamRemove
  split
  · exact length_eraseP_le _ _
  · exact le_refl _

theorem stop_sounds_le (id : ℕ) (m : Mixer) :
    (stop id m).sounds.length ≤ m.sounds.length := streamRemove_sounds_le id m

theorem eos_sounds_le (id : ℕ) (m : Mixer) :
    (eos id m).sounds.length ≤ m.sounds.length := by
  unfold eos
  dsimp only
  split
  · exact le_trans (streamRemove_sounds_le _ _) (stop_sounds_le _ _)
  · split
    · exact le_trans (streamRemove_sounds_le _ _) (stop_sounds_le _ _)
    · exact streamRemove_sounds_le _ _

theorem nextBlock_sounds_le (id : ℕ) (m : Mixer) :
    (nextBlock id m).2.sounds.length ≤ m.sounds.length := by
  unfold nextBlock
  dsimp only
  split
  · exact le_refl _
  · split <;> exact le_refl _
  · split
    · exact eos_sounds_le _ _
    · exact le_refl _

theorem pyListRemove_length_le (id : ℕ) (l l₁ : List ℕ)
    (h : pyListRemove id l = .ok l₁) : l₁.length ≤ l.length := by
  unfold pyListRemove at h
  split at h
  · cases h; exact length_eraseP_le _ _
  · cases h

/-- One record per completed pull inside a callback invocation: the
sound identifier, `len(dat)`, and the sound's cursor just before the
pull.  (An observation instrument added by the embedding; the Python
loop keeps no such record.) -/
structure PullLog where
  id : ℕ
  n : ℕ
  tBefore : ℚ
  deriving DecidableEq, Repr

/-- The `for thisSound in self.sounds` loop of `_SoundStream.callback`
(lines 134-148), embedded with Python's list-iterator semantics: the
iterator keeps a bare index into the *live* list, so a removal shifts
later elements under it.  `B` is the stream's block size
(`len(toSpk[:, :])`).  A short block triggers `self.sounds.remove`
(raw `list.remove`, line 142) followed by `_EOS` (line 143).  An
exception anywhere propagates out, keeping the mutations made so far. -/
def callbackLoop (B : ℕ) : ℕ → Mixer → ℕ → List PullLog →
    Except Err Unit × Mixer × List PullLog
  | 0, m, _, log => (.ok (), m, log)
  | fuel+1, m, i, log =>
    if h : i < m.sounds.length then
      match nextBlock (m.sounds.get ⟨i, h⟩) m with
      | (.error e, m₁) => (.error e, m₁, log)
      | (.ok n, m₁) =>
        let log₁ := log ++ [⟨m.sounds.get ⟨i, h⟩, n, (m.store (m.sounds.get ⟨i, h⟩)).t⟩]
        if n < B then
          match pyListRemove (m.sounds.get ⟨i, h⟩) m₁.sounds with
          | .error e => (.error e, m₁, log₁)
          | .ok l => callbackLoop B fuel (eos (m.sounds.get ⟨i, h⟩) ⟨l, m₁.store⟩) (i+1) log₁
        else callbackLoop B fuel m₁ (i+1) log₁
    else (.ok (), m, log)

/-- One whole invocation of `_SoundStream.callback`: zero the output
buffer, then run the mixing loop over `self.sounds` from the start.
The iteration index `i` strictly increases and the loop stops as soon
as `i` reaches the current list length, which never grows during the
invocation (`nextBlock_sounds_le`), so `m.sounds.length` steps of fuel
always run the loop to its guard-driven end. -/
def callback (B : ℕ) (m : Mixer) : Except Err Unit × Mixer × List PullLog :=
  callbackLoop B m.sounds.length m 0 []

/-- `SoundDeviceSound.play` (lines 337-345): set status to PLAYING and
`_SoundStream.add` (line 159) appends unconditionally to `self.sounds`
(the `loops` argument and the timestamp bookkeeping have no bearing on
the claims and are omitted). -/
def play (id : ℕ) (m : Mixer) : Mixer :=
  let m₁ := m.update id { m.store id with status := .playing }
  ⟨m₁.sounds ++ [id], m₁.store⟩

/-- `SoundDeviceSound.pause` (lines 347-351). -/
def pause (id : ℕ) (m : Mixer) : Mixer :=
  streamRemove id (m.update id { m.store id with status := .paused })

/-- Repeatedly pull a single sound the way the callback would (one pull
per invocation for a stream whose only active sound it is), summing the
frames produced, until a short block signals end-of-stream.  Returns
the total frame count and whether end-of-stream was reached within
`fuel` pulls. -/
def drainLoop (B : ℕ) (id : ℕ) : ℕ → Mixer → ℕ → ℕ × Bool
  | 0, _, acc => (acc, false)
  | fuel+1, m, acc =>
    match nextBlock id m with
    | (.ok n, m₁) => if n < B then (acc + n, true) else drainLoop B id fuel m₁ (acc + n)
    | (.error _, _) => (acc, false)

/-- The exception (if any) a callback invocation raised. -/
def runErr (r : Except Err Unit × Mixer × List PullLog) : Option Err :=
  match r.1 with
  | .error e => some e
  | .ok _ => none

/-- The play list after a callback invocation. -/
def runSounds (r : Except Err Unit × Mixer × List PullLog) : List ℕ := r.2.1.sounds

/-- The pulls a callback invocation performed. -/
def runLog (r : Except Err Unit × Mixer × List PullLog) : List PullLog := r.2.2

/-- A sound's status after a callback invocation. -/
def runStatus (id : ℕ) (r : Except Err Unit × Mixer × List PullLog) : Status :=
  (r.2.1.store id).status

/-- A sound's cursor after a callback invocation. -/
def runT (id : ℕ) (r : Except Err Unit × Mixer × List PullLog) : ℚ :=
  (r.2.1.store id).t

/-- A sound's `_loopsFinished` counter after a callback invocation. -/
def runLoopsFinished (id : ℕ) (r : Except Err Unit × Mixer × List PullLog) : ℤ :=
  (r.2.1.store id).loopsFinished

/-- `getStreamLabel` (lines 27-30): `"{}_{}_{}".format(sampleRate,
channels, blockSize)`. -/
def mkLabel (r c b : ℤ) : String := toString r ++ "_" ++ toString c ++ "_" ++ toString b

/-- A token of the compiled pattern in `_StreamsDict.getSimilar`
(line 54): either a literal character of the request label or the
wildcard `[-+]?(\d+)` that `label.replace("-1", ...)` substitutes for
each occurrence of the substring `-1`. -/
inductive Tok where
  | lit (c : Char)
  | num
  deriving DecidableEq, Repr

/-- `label.replace("-1", r"[-+]?(\d+)")` (line 54): left-to-right,
non-overlapping replacement of the two-character substring `-1`. -/
def toPattern : List Char → List Tok
  | [] => []
  | '-' :: '1' :: rest => Tok.num :: toPattern rest
  | c :: rest => Tok.lit c :: toPattern rest

/-- `simil.match(thisFormat)` (line 56): Python `re.match` anchors at
the start of the string only, so the pattern may match a mere *prefix*
of the stored key.  `[-+]?(\d+)` consumes an optional sign and then,
with backtracking, any non-empty prefix of the maximal digit run. -/
def patMatch : List Tok → List Char → Bool
  | [], _ => true
  | Tok.lit _ :: _, [] => false
  | Tok.lit c :: p, d :: s => c = d && patMatch p s
  | Tok.num :: p, s =>
    let s1 := match s with
      | c :: rest => if c = '-' ∨ c = '+' then rest else s
      | [] => s
    let ds := s1.takeWhile fun c => '0' ≤ c && c ≤ '9'
    decide (0 < ds.length) && (List.range ds.length).any fun j => patMatch p (s1.drop (j+1))

/-- One stored stream of the `_StreamsDict`: its key string, an
identity for the `_SoundStream` object, and the stream's format triple
(the `_SoundStream` fields `sampleRate`, `channels`, `blockSize`). -/
structure StreamEntry where
  label : String
  sid : ℕ
  rate : ℤ
  channels : ℤ
  blockSize : ℤ
  deriving DecidableEq, Repr

/-- The `_StreamsDict` instance `streams`: stored entries (in table
order) plus a counter supplying fresh stream identities. -/
structure Registry where
  entries : List StreamEntry
  nextId : ℕ
  deriving DecidableEq, Repr

/-- `_StreamsDict.getStream` (lines 64-82).  `win32` is
`sys.platform == 'win32'`. -/
def getStream (win32 : Bool) (reg : Registry) (r c b : ℤ) :
    Except Err (StreamEntry × Registry) :=
  let lbl := mkLabel r c b
  match reg.entries.find? (fun e => e.label == lbl) with
  | some e => .ok (e, reg)
  | none =>
    if win32 && !reg.entries.isEmpty then .error .soundFormat
    else
      let e : StreamEntry := ⟨lbl, reg.nextId, r, c, b⟩
      .ok (e, ⟨reg.entries ++ [e], reg.nextId + 1⟩)

/-- What `getSimilar` hands back: a `(label, stream)` pair (whether
found or freshly created) or Python's implicit `None`. -/
inductive SimilarRes where
  | found (e : StreamEntry)
  | noMatch
  deriving DecidableEq, Repr

/-- `_StreamsDict.getSimilar` (lines 39-62).  The arguments are plain
integers here, so the `None` cases of the concreteness test cannot
arise; note the test treats `sampleRate = 0` as non-concrete. -/
def getSimilar (win32 : Bool) (reg : Registry) (r c b : ℤ) :
    Except Err (SimilarRes × Registry) :=
  let pat := toPattern (mkLabel r c b).data
  match reg.entries.find? (fun e => patMatch pat e.label.data) with
  | some e => .ok (.found e, reg)
  | none =>
    if r ≠ -1 ∧ r ≠ 0 ∧ c ≠ -1 ∧ b ≠ -1 then
      match getStream win32 reg r c b with
      | .ok (e, reg₁) => .ok (.found e, reg₁)
      | .error err => .error err
    else .ok (.noMatch, reg)

/-- The stream-resolution block of `SoundDeviceSound.setSound`
(lines 260-278): try the exact stream; on `SoundFormatError` fall back
to `getSimilar(self.sampleRate, channels=-1, blockSize=-1)`; if that is
`None` re-raise `SoundFormatError`, otherwise attach to the similar
stream and overwrite the sound's own `sampleRate`, `channels` and
`blockSize` with the stream's.  Returns the attached entry, the updated
registry, and the sound's final format triple. -/
def setSoundResolve (win32 : Bool) (reg : Registry) (r c b : ℤ) :
    Except Err (StreamEntry × Registry × ℤ × ℤ × ℤ) :=
  match getStream win32 reg r c b with
  | .ok (e, reg₁) => .ok (e, reg₁, r, c, b)
  | .error _ =>
    match getSimilar win32 reg r (-1) (-1) with
    | .ok (.found e, reg₁) => .ok (e, reg₁, e.rate, e.channels, e.blockSize)
    | .ok (.noMatch, _) => .error .soundFormat
    | .error err => .error err

/-- Modelled from the spec:
"scans existing keys for one whose non-wildcard fields equal the
request's non-wildcard fields (wildcard fields match anything)" —
the whole-value field comparison the specification describes for
`getSimilar`, stated over the stored format triple and the request. -/
def specFieldsMatch (sr sc sb rr rc rb : ℤ) : Bool :=
  (rr == -1 || sr == rr) && (rc == -1 || sc == rc) && (rb == -1 || sb == rb)

/-- Iterate whole callback invocations, threading the stream state. -/
def callbackN (B : ℕ) : ℕ → Mixer → Mixer
  | 0, m => m
  | k+1, m => callbackN B k (callback B m).2.1

/-- `SoundDeviceSound._setSndFromFreq` (lines 312-321) for a sound
constructed from a frequency: `sourceType = 'freq'`, `t = 0`,
`duration = secs`; `stopTime` keeps its constructor default `-1`
(unused by the tone branch of `_nextBlock`). -/
def setSndFromFreq (freq secs rate : ℚ) (blockSize : ℕ) (loops : ℤ) : Sound :=
  { sourceType := .freq, sampleRate := rate, blockSize := blockSize,
    stopTime := -1, secs := secs, freq := freq, t := 0, frameN := 0,
    loops := loops, loopsFinished := 0, status := .notStarted,
    stereo := -1, sndArr := ⟨0, fun _ => 0⟩, fileFrames := 0, filePos := 0 }

/-- `SoundDeviceSound._setSndFromFile` (lines 280-310) for a file of
`fileFrames` frames with per-frame content `fileVals`
(`info.duration = fileFrames / rate`).  With `preBuffer = 0` the sound
streams from the open, pre-seeked file; with `preBuffer = -1` it reads
`durationFrames` frames from the current position, closes the file, and
`_setSndFromArray` (lines 323-335) wraps them and ends with `seek(0)`. -/
def setSndFromFile (fileVals : ℕ → ℚ) (fileFrames : ℕ) (rate : ℚ)
    (startTime stopTime : ℚ) (preBuffer : ℤ) (stereo : ℤ) (blockSize : ℕ) : Sound :=
  let t0 : ℚ := if 0 < startTime then startTime else 0
  let startFrame : ℕ := if 0 < startTime then (truncQ (startTime * rate)).toNat else 0
  let duration : ℚ :=
    if 0 < stopTime then min (stopTime - t0) ((fileFrames : ℚ) / rate)
    else (fileFrames : ℚ) / rate - t0
  let durationFrames : ℕ := (pyRound (duration * rate)).toNat
  let base : Sound :=
    { sourceType := .fileStream, sampleRate := rate, blockSize := blockSize,
      stopTime := stopTime, secs := 0, freq := 0, t := t0,
      frameN := (startFrame : ℤ), loops := 0, loopsFinished := 0,
      status := .notStarted, stereo := stereo,
      sndArr := ⟨0, fun _ => 0⟩, fileFrames := fileFrames, filePos := startFrame }
  if preBuffer = 0 then base
  else
    let got : ℕ := min durationFrames (fileFrames - startFrame)
    let s₁ : Sound := { base with
                        sourceType := .arr,
                        sndArr := ⟨got, fun k => fileVals (startFrame + k)⟩ }
    { s₁.seek 0 with status := .notStarted }

/-- `np.linspace(start, stop, num, endpoint=False)` entry `i`, at
rational inputs: `start + i * (stop - start) / num`. -/
def linspaceQ (start stop : ℚ) (num : ℕ) (i : ℕ) : ℚ :=
  start + i * ((stop - start) / num)

/-- Entry `i` of `tRange = np.linspace(startT, stopT, num=blockSize,
endpoint=False)` (lines 388-389): the absolute time of frame `i` of the
current tone block. -/
def tRangeAt (rate : ℚ) (B : ℕ) (t : ℚ) (i : ℕ) : ℚ :=
  linspaceQ t (t + (B : ℚ) / rate) B i

/-- The coefficient `q` with `xx[i] = q * π`, for
`xx = np.linspace(start=startT*freq*2*pi, stop=stopT*freq*2*pi,
num=blockSize, endpoint=False)` (lines 380-384); the tone block is
`np.sin(xx)` (line 385), i.e. sample `i` is `Real.sin (tonePhase … * π)`.
The subsequent `block[tRange > self.secs] == 0` (line 390) is a bare
comparison — a no-op — so the returned block is `np.sin(xx)` itself. -/
def tonePhase (freq rate : ℚ) (B : ℕ) (t : ℚ) (i : ℕ) : ℚ :=
  linspaceQ (t * freq * 2) ((t + (B : ℚ) / rate) * freq * 2) B i

/-- `toSpk[:len(dat), 0] += dat` (line 139): accumulate one pulled
block into the `B`-frame output buffer. -/
def accumBlock (B : ℕ) (out : ℕ → ℚ) (blk : Arr) : ℕ → ℚ :=
  fun i => if i < min blk.len B then out i + blk.val i else out i

/-- The summed output of a callback invocation's pulls, starting from
the zeroed buffer (`toSpk *= 0`, line 133). -/
def mixPulls (B : ℕ) (blks : List Arr) : ℕ → ℚ :=
  blks.foldl (accumBlock B) fun _ => 0

/-! ### Concrete scenarios used by the claims -/

/-- A raw-array sound state (`sourceType = 'array'` or a fully
pre-decoded file): `len` frames of constant sample `v`. -/
def arrSound (len : ℕ) (v : ℚ) (rate stopTime : ℚ) (B : ℕ) (stereo : ℤ) : Sound :=
  { sourceType := .arr, sampleRate := rate, blockSize := B, stopTime := stopTime,
    secs := 0, freq := 0, t := 0, frameN := 0, loops := 0, loopsFinished := 0,
    status := .notStarted, stereo := stereo, sndArr := ⟨len, fun _ => v⟩,
    fileFrames := 0, filePos := 0 }

/-- C1: a 1-second tone at 4 Hz sample rate, block size 4,
`loops = 2`, played on its stream. -/
def c1Mixer : Mixer := play 0 ⟨[], fun _ => setSndFromFreq 1 1 4 4 2⟩

/-- C2: two one-frame array sounds (both produce a short first block)
played in order on the same stream. -/
def c2Mixer : Mixer := play 1 (play 0 ⟨[], fun _ => arrSound 1 1 4 10 4 0⟩)

/-- C3: sound 0 is an array sound whose `stereo` was never resolved
away from the constructor default `-1`, so its `_nextBlock` raises
`UnboundLocalError`; sound 1 is a healthy mono array sound.  Both are
playing. -/
def c3Mixer : Mixer :=
  play 1 (play 0 ⟨[], fun j => if j = 0 then arrSound 8 1 4 10 4 (-1) else arrSound 8 1 4 10 4 0⟩)

/-- C4: a half-second tone (freq 1 Hz) at rate 4, block size 4,
`loops = 0`, playing: its very first block crosses `secs = 1/2`. -/
def c4Mixer : Mixer := play 0 ⟨[], fun _ => setSndFromFreq 1 (1/2) 4 4 0⟩

/-- C5 counterexample state: a 5-frame array sound (rate 4, block 4,
`stopTime = 2`) whose cursor already sits at 1 s, so only one frame of
material remains. -/
def c5Mixer : Mixer := ⟨[0], fun _ => { arrSound 5 1 4 2 4 0 with t := 1 }⟩

/-- C8: `_setSndFromFile` on a 3-second, 132300-frame file at 44100 Hz
with `startTime = 1`, `stopTime = 2`, block size 128 — fully pre-decoded
(`preBuffer = -1`). -/
def c8PreMixer : Mixer :=
  ⟨[0], fun _ => setSndFromFile (fun _ => 0) 132300 44100 1 2 (-1) 1 128⟩

/-- C8: the same construction in streaming mode (`preBuffer = 0`). -/
def c8StreamMixer : Mixer :=
  ⟨[0], fun _ => setSndFromFile (fun _ => 0) 132300 44100 1 2 0 1 128⟩

/-- C10: a 12-frame constant-valued (sample 1) mono array sound. -/
def c10Sound : Sound := arrSound 12 1 4 10 4 0

/-- C10: the same sound played twice with no intervening stop, pause or
end-of-stream. -/
def c10Mixer : Mixer := play 0 (play 0 ⟨[], fun _ => c10Sound⟩)

/-- C6: a registry holding one stream keyed `44100_2_128`. -/
def c6Reg : Registry := ⟨[⟨mkLabel 44100 2 128, 0, 44100, 2, 128⟩], 1⟩

/-- C7: a registry holding one stream keyed `44100_1_64` (mono, block
64). -/
def c7Reg : Registry := ⟨[⟨mkLabel 44100 1 64, 0, 44100, 1, 64⟩], 1⟩

theorem Mixer.store_update_self (m : Mixer) (id : ℕ) (s : Sound) :
    (m.update id s).store id = s := by
  simp [Mixer.update]

theorem pyRound_nonneg (q : ℚ) (h : 0 ≤ q) : 0 ≤ pyRound q := by
  unfold pyRound
  rw [if_neg (not_lt.mpr h)]
  exact Int.floor_nonneg.mpr (by linarith)

theorem nFramesQ_le_blockSize (s : Sound) : nFramesQ s ≤ (s.blockSize : ℚ) :=
  min_le_left _ _

theorem bumpT_store_t (id : ℕ) (m : Mixer) :
    ((bumpT id m).store id).t
      = (m.store id).t + ((m.store id).blockSize : ℚ) / (m.store id).sampleRate := by
  simp [bumpT, Mixer.update]

theorem bumpT_update_store_t (m : Mixer) (id : ℕ) (s : Sound) :
    ((bumpT id (m.update id s)).store id).t = s.t + (s.blockSize : ℚ) / s.sampleRate := by
  simp [bumpT, Mixer.update]

/-- The streaming-file branch of `_nextBlock`, written out. -/
theorem nextBlock_fileStream_eq (id : ℕ) (m : Mixer)
    (h : (m.store id).sourceType = .fileStream) :
    nextBlock id m =
      (.ok (fsRead (m.store id)),
       bumpT id (m.update id { m.store id with
        filePos := (m.store id).filePos + fsRead (m.store id) })) := by
  simp only [nextBlock]
  rw [h]

theorem truncQ_nonneg (q : ℚ) (h : 0 ≤ q) : 0 ≤ truncQ q := by
  unfold truncQ
  rw [if_neg (not_lt.mpr h)]
  exact Int.floor_nonneg.mpr h

/-- With a non-negative frame budget the streaming read returns at most
`blockSize` frames; with a negative budget it returns the whole rest of
the file, which can exceed any bound. -/
theorem fsRead_le_blockSize (s : Sound) (h : 0 ≤ nFramesQ s) :
    fsRead s ≤ s.blockSize := by
  unfold fsRead
  rw [if_neg (not_lt.mpr h)]
  have hb := truncQ_le_nat (nFramesQ s) s.blockSize (nFramesQ_le_blockSize s)
  omega

/-- The array branch of `_nextBlock` with a resolved `stereo`, written
out. -/
theorem nextBlock_arr_eq (id : ℕ) (m : Mixer)
    (h : (m.store id).sourceType = .arr)
    (hs : (m.store id).stereo = 1 ∨ (m.store id).stereo = 0) :
    nextBlock id m = (.ok (arrBlockAt (m.store id) (m.store id).t).len, bumpT id m) := by
  simp only [nextBlock]
  rw [h, if_pos hs]

/-- The tone branch of `_nextBlock` when the block does not cross
`secs`. -/
theorem nextBlock_freq_nocross (id : ℕ) (m : Mixer)
    (h : (m.store id).sourceType = .freq)
    (hc : ¬ (m.store id).secs
        < (m.store id).t + ((m.store id).blockSize : ℚ) / (m.store id).sampleRate) :
    nextBlock id m = (.ok (m.store id).blockSize, bumpT id m) := by
  simp only [nextBlock]
  rw [h, if_neg hc]

/-- The tone branch of `_nextBlock` when the block crosses `secs`:
`_EOS` fires inside the pull and the cursor bump applies afterwards. -/
theorem nextBlock_freq_cross (id : ℕ) (m : Mixer)
    (h : (m.store id).sourceType = .freq)
    (hc : (m.store id).secs
        < (m.store id).t + ((m.store id).blockSize : ℚ) / (m.store id).sampleRate) :
    nextBlock id m = (.ok (m.store id).blockSize, bumpT id (eos id m)) := by
  simp only [nextBlock]
  rw [h, if_pos hc]

/-- The `arr` branch of `_nextBlock` with an unresolved `stereo`:
neither the `if self.stereo == 1` nor the `elif self.stereo == 0` arm
assigns `block`, `self.t` is still advanced (line 394), and `return
block` raises `UnboundLocalError`. -/
theorem nextBlock_arr_badStereo (id : ℕ) (m : Mixer)
    (hst : (m.store id).sourceType = .arr)
    (h1 : (m.store id).stereo ≠ 1) (h0 : (m.store id).stereo ≠ 0) :
    nextBlock id m = (.error .unboundLocal, bumpT id m) := by
  simp only [nextBlock]
  rw [hst]
  rw [if_neg]
  rintro (h | h)
  · exact h1 h
  · exact h0 h

end SoundDevice

namespace SoundDeviceClaims
open SoundDevice

/-- C1: On a non-final end-of-stream of a looping sound
(`loopsCompleted < loopCount`, here 1 < 2) the claim requires the
source to reset its cursor to loop start, stay in the active set and
not become Finished, with two such resets before the transition to
Finished.  The code's `_EOS` (lines 403-413) instead removes the sound
from the stream and sets `status = FINISHED` *unconditionally*: after
the very first end-of-stream (the second 1-second block of a 1-second
tone at rate 4, block size 4) the active set is empty, the status is
Finished, `_loopsFinished = 1 < loops = 2`, and the cursor was never
reset (it sits at 2 s).  So the sound plays through exactly once,
with zero continuing resets. -/
theorem c1_eos_finishes_on_first_eos :
    runSounds (callback 4 (callbackN 4 1 c1Mixer)) = [] ∧
    runStatus 0 (callback 4 (callbackN 4 1 c1Mixer)) = .finished ∧
    runLoopsFinished 0 (callback 4 (callbackN 4 1 c1Mixer)) = 1 ∧
    runT 0 (callback 4 (callbackN 4 1 c1Mixer)) = 2 := by
  with_unfolding_all decide

/-- C2: the claim says every source in the active set at the start of a
callback invocation is pulled exactly once, removal never causing a
skip.  The loop (lines 134-143) iterates the live `self.sounds` list
while `self.sounds.remove` shifts it: with active set `[0, 1]` where
sound 0 returns a short (1-frame) block, the iterator's next index 1
now points past the end of the shrunken list `[1]`, so sound 1 — still
active and playing — is never pulled in that invocation (the pull log
records only sound 0). -/
theorem c2_removal_skips_next_sound :
    runLog (callback 4 c2Mixer) = [⟨0, 1, 0⟩] ∧
    runSounds (callback 4 c2Mixer) = [1] ∧
    runStatus 0 (callback 4 c2Mixer) = .finished ∧
    runStatus 1 (callback 4 c2Mixer) = .playing := by
  with_unfolding_all decide

/-- C3 counterexample: the claim says an error raised by one source's
block production is caught, the source dropped from the active set, and
the remaining sounds still pulled in the same invocation.  With active
set `[0, 1]` where sound 0's block production raises
(`UnboundLocalError` from the unassigned `block`, lines 372-375), the
callback — which contains no error handling at all (lines 115-155) —
propagates the error out, leaves both sounds in the active set, and
never pulls sound 1. -/
theorem c3_error_propagates_counterexample :
    runErr (callback 4 c3Mixer) = some .unboundLocal ∧
    runSounds (callback 4 c3Mixer) = [0, 1] ∧
    runLog (callback 4 c3Mixer) = [] ∧
    runStatus 1 (callback 4 c3Mixer) = .playing := by
  with_unfolding_all decide

/-- C3 amended: the callback has no error handling.  Whenever the first
sound of the active set raises during block production (here: any array
sound whose `stereo` is neither 1 nor 0), the exception propagates out
of the callback; the erroring sound is not removed (the play list is
untouched), no sound is pulled to completion, and the only mutation
kept is the cursor bump Python performed before the raise. -/
theorem c3_amended_no_error_handling (B : ℕ) (store : ℕ → Sound) (id : ℕ) (rest : List ℕ)
    (hst : (store id).sourceType = .arr)
    (h1 : (store id).stereo ≠ 1) (h0 : (store id).stereo ≠ 0) :
    callback B ⟨id :: rest, store⟩
      = (.error .unboundLocal, bumpT id ⟨id :: rest, store⟩, []) ∧
    runSounds (callback B ⟨id :: rest, store⟩) = id :: rest ∧
    runLog (callback B ⟨id :: rest, store⟩) = [] := by
  have hnb : nextBlock id ⟨id :: rest, store⟩
      = (.error .unboundLocal, bumpT id ⟨id :: rest, store⟩) :=
    nextBlock_arr_badStereo id _ hst h1 h0
  have hmain : callback B ⟨id :: rest, store⟩
      = (.error .unboundLocal, bumpT id ⟨id :: rest, store⟩, []) := by
    have hget : ∀ h : 0 < (id :: rest).length, (id :: rest).get ⟨0, h⟩ = id := fun _ => rfl
    simp only [callback, List.length_cons, callbackLoop]
    rw [dif_pos (by simp)]
    simp only [hget]
    rw [hnb]
  refine ⟨hmain, ?_, ?_⟩
  · rw [hmain]
    rfl
  · rw [hmain]
    rfl

/-- C3 witness for the amended theorem at a concrete input. -/
theorem c3_amended_no_error_handling_witness :
    callback 4 ⟨[0, 1], fun j => if j = 0 then arrSound 8 1 4 10 4 (-1) else arrSound 8 1 4 10 4 0⟩
      = (.error .unboundLocal,
         bumpT 0 ⟨[0, 1], fun j => if j = 0 then arrSound 8 1 4 10 4 (-1) else arrSound 8 1 4 10 4 0⟩,
         []) :=
  (c3_amended_no_error_handling 4
    (fun j => if j = 0 then arrSound 8 1 4 10 4 (-1) else arrSound 8 1 4 10 4 0) 0 [1]
    (by with_unfolding_all decide) (by with_unfolding_all decide)
    (by with_unfolding_all decide)).1

/-- C4: the claim says frames past the duration are silenced and that
end-of-stream is signalled on the pull *after* the last non-silent
frame.  For a half-second tone (freq 1 Hz, rate 4, block 4) the first
pull already crosses `secs = 1/2`: its frame 3 lies at time 3/4 > 1/2,
yet its sample value is `sin(3π/2) = -1`, not 0 — the "zeroing"
statement `block[tRange > self.secs] == 0` (line 390) is a comparison,
a no-op, directly under the comment "set to zeros".  Moreover `_EOS` is
invoked from inside that same crossing pull (line 392), which returns a
*full* 4-frame block: after one callback the sound is already removed
and Finished without ever returning a short block. -/
theorem c4_tone_truncation_noop :
    (1/2 : ℚ) < tRangeAt 4 4 0 3 ∧
    Real.sin ((tonePhase 1 4 4 0 3 : ℝ) * Real.pi) = -1 ∧
    runLog (callback 4 c4Mixer) = [⟨0, 4, 0⟩] ∧
    runSounds (callback 4 c4Mixer) = [] ∧
    runStatus 0 (callback 4 c4Mixer) = .finished := by
  refine ⟨by with_unfolding_all decide, ?_, by with_unfolding_all decide,
    by with_unfolding_all decide, by with_unfolding_all decide⟩
  have h : tonePhase 1 4 4 0 3 = 3/2 := by with_unfolding_all decide
  rw [h]
  have h2 : ((3/2 : ℚ) : ℝ) * Real.pi = Real.pi + Real.pi/2 := by
    push_cast
    ring
  rw [h2, Real.sin_add, Real.sin_pi, Real.cos_pi, Real.sin_pi_div_two]
  ring

/-- C5 counterexample: the claim says `nextBlock` "advances the cursor
by exactly the number of frames actually produced in that pull".  On a
5-frame array sound (rate 4, block 4, cursor at 1 s) the pull produces
1 frame but the cursor still advances by a full block
(`self.t += blockSize/rate`, line 394, runs unconditionally): `t` goes
from 1 to 2 (4 frames), not to 1 + 1/4. -/
theorem c5_cursor_advance_counterexample :
    (nextBlock 0 c5Mixer).1 = .ok 1 ∧
    ((nextBlock 0 c5Mixer).2.store 0).t = 2 ∧
    (2 : ℚ) ≠ 1 + (1 : ℚ) / 4 := by
  with_unfolding_all decide

/-- C5 amended: the returned block is at most `blockSize` frames for a
tone pull (always exactly `blockSize`), for a streaming-file pull with
a non-negative frame budget `min(blockSize, (stopTime-t)*rate)` (with a
negative budget — e.g. the constructor default `stopTime = -1` —
`sndFile.read` returns the *entire rest of the file*, which can exceed
any bound), and for an array pull with non-negative cursor, sample rate
and budget (a negative budget triggers Python's wrap-around slicing).
The cursor, however, always advances by exactly `blockSize/sampleRate`
seconds — a full block — regardless of the number of frames actually
produced, except that a tone pull which crosses `secs` first resets the
cursor through `_EOS`'s stop path.  Array/file sources signal
end-of-stream by the short return; tone sources never return short and
call `_EOS` directly. -/
theorem c5_amended_block_bound_full_cursor_advance (id : ℕ) (m : Mixer) :
    (∀ n m₁, nextBlock id m = (.ok n, m₁) →
      ((m.store id).sourceType = .freq → n ≤ (m.store id).blockSize) ∧
      ((m.store id).sourceType = .fileStream → 0 ≤ nFramesQ (m.store id) →
        n ≤ (m.store id).blockSize) ∧
      ((m.store id).sourceType = .arr → 0 ≤ (m.store id).t →
        0 ≤ (m.store id).sampleRate → 0 ≤ nFramesQ (m.store id) →
        n ≤ (m.store id).blockSize)) ∧
    (((m.store id).sourceType = .freq →
        ¬ (m.store id).secs
          < (m.store id).t + ((m.store id).blockSize : ℚ) / (m.store id).sampleRate) →
      ((nextBlock id m).2.store id).t
        = (m.store id).t + ((m.store id).blockSize : ℚ) / (m.store id).sampleRate) := by
  cases hst : (m.store id).sourceType with
  | fileStream =>
    rw [nextBlock_fileStream_eq id m hst]
    constructor
    · rintro n m₁ heq
      cases heq
      refine ⟨fun h => SourceType.noConfusion h, fun _ hb => fsRead_le_blockSize _ hb,
        fun h => SourceType.noConfusion h⟩
    · intro _
      dsimp only
      rw [bumpT_update_store_t]
  | arr =>
    by_cases hs : (m.store id).stereo = 1 ∨ (m.store id).stereo = 0
    · rw [nextBlock_arr_eq id m hst hs]
      constructor
      · rintro n m₁ heq
        cases heq
        refine ⟨fun h => SourceType.noConfusion h, fun h => SourceType.noConfusion h, ?_⟩
        intro _ ht hr hb
        have htr : 0 ≤ truncQ (nFramesQ (m.store id)) := truncQ_nonneg _ hb
        have hbound : (truncQ (nFramesQ (m.store id))).toNat ≤ (m.store id).blockSize := by
          have h := truncQ_le_nat (nFramesQ (m.store id)) (m.store id).blockSize
            (nFramesQ_le_blockSize _)
          omega
        have hself : ({ m.store id with t := (m.store id).t } : Sound) = m.store id := rfl
        have hi : 0 ≤ pyRound ((m.store id).t * (m.store id).sampleRate) :=
          pyRound_nonneg _ (mul_nonneg ht hr)
        have hlen := pySliceArr_len_le (m.store id).sndArr
          (pyRound ((m.store id).t * (m.store id).sampleRate))
          (pyRound ((m.store id).t * (m.store id).sampleRate)
            + truncQ (nFramesQ (m.store id)))
          hi (by omega)
        unfold arrBlockAt
        dsimp only
        rw [hself]
        omega
      · intro _
        dsimp only
        rw [bumpT_store_t]
    · have hs1 : (m.store id).stereo ≠ 1 := fun h => hs (Or.inl h)
      have hs0 : (m.store id).stereo ≠ 0 := fun h => hs (Or.inr h)
      rw [nextBlock_arr_badStereo id m hst hs1 hs0]
      constructor
      · rintro n m₁ heq
        rw [Prod.mk.injEq] at heq
        exact absurd heq.1 (by simp)
      · intro _
        dsimp only
        rw [bumpT_store_t]
  | freq =>
    by_cases hc : (m.store id).secs
        < (m.store id).t + ((m.store id).blockSize : ℚ) / (m.store id).sampleRate
    · rw [nextBlock_freq_cross id m hst hc]
      constructor
      · rintro n m₁ heq
        cases heq
        exact ⟨fun _ => le_refl _, fun h => SourceType.noConfusion h,
          fun h => SourceType.noConfusion h⟩
      · intro hnc
        exact absurd hc (hnc rfl)
    · rw [nextBlock_freq_nocross id m hst hc]
      constructor
      · rintro n m₁ heq
        cases heq
        exact ⟨fun _ => le_refl _, fun h => SourceType.noConfusion h,
          fun h => SourceType.noConfusion h⟩
      · intro _
        dsimp only
        rw [bumpT_store_t]

/-- C5 witness for the amended theorem at the counterexample state (an
array pull with non-negative cursor, rate and budget). -/
theorem c5_amended_witness :
    1 ≤ (c5Mixer.store 0).blockSize ∧
    ((nextBlock 0 c5Mixer).2.store 0).t
      = (c5Mixer.store 0).t
        + ((c5Mixer.store 0).blockSize : ℚ) / (c5Mixer.store 0).sampleRate := by
  have hfst : (nextBlock 0 c5Mixer).1 = Except.ok 1 := by with_unfolding_all decide
  have heq : nextBlock 0 c5Mixer = (Except.ok 1, (nextBlock 0 c5Mixer).2) := by
    rw [← hfst]
  constructor
  · exact ((c5_amended_block_bound_full_cursor_advance 0 c5Mixer).1 1
      (nextBlock 0 c5Mixer).2 heq).2.2 rfl
      (by with_unfolding_all decide) (by with_unfolding_all decide)
      (by with_unfolding_all decide)
  · exact (c5_amended_block_bound_full_cursor_advance 0 c5Mixer).2
      (fun h => absurd h (by with_unfolding_all decide))

/-- C6: the claim says a stored stream is returned if and only if some
stored key agrees with the request on every non-wildcard field compared
as a *whole value* — "a stored field equal to 128 never matches a
concrete request field 12".  But `getSimilar` compiles the request
label to a regex and uses `re.match` (line 56), which anchors only at
the *start*: the request `(44100, 2, 12)` — all fields concrete, no
wildcard — produces the pattern `44100_2_12`, which matches a prefix of
the stored key `44100_2_128`, so the blockSize-128 stream is returned
even though 128 ≠ 12 (and no new stream is created although all three
fields are concrete).  The spec-worded whole-value comparison
(`specFieldsMatch`) rejects this pair. -/
theorem c6_prefix_match_violates_whole_value :
    getSimilar false c6Reg 44100 2 12
      = .ok (.found ⟨mkLabel 44100 2 128, 0, 44100, 2, 128⟩, c6Reg) ∧
    specFieldsMatch 44100 2 128 44100 2 12 = false := by
  decide

/-- C7: sound construction (`setSound`, lines 258-278) first requests
the exact stream; when that raises the single-stream platform error it
requests a similar stream with channels and blockSize wildcarded; if
none is found a `SoundFormatError` is raised and construction fails;
if one is found the sound's own sampleRate/channels/blockSize are
overwritten with the fields of the stream it was attached to. -/
theorem c7_resolution_policy (win32 : Bool) (reg : Registry) (r c b : ℤ) :
    (∀ e reg₁, getStream win32 reg r c b = .ok (e, reg₁) →
      setSoundResolve win32 reg r c b = .ok (e, reg₁, r, c, b)) ∧
    (∀ err e reg₁, getStream win32 reg r c b = .error err →
      getSimilar win32 reg r (-1) (-1) = .ok (.found e, reg₁) →
      setSoundResolve win32 reg r c b = .ok (e, reg₁, e.rate, e.channels, e.blockSize)) ∧
    (∀ err reg₁, getStream win32 reg r c b = .error err →
      getSimilar win32 reg r (-1) (-1) = .ok (.noMatch, reg₁) →
      setSoundResolve win32 reg r c b = .error .soundFormat) := by
  refine ⟨?_, ?_, ?_⟩
  · intro e reg₁ h
    simp only [setSoundResolve, h]
  · intro err e reg₁ h hsim
    simp only [setSoundResolve, h, hsim]
  · intro err reg₁ h hsim
    simp only [setSoundResolve, h, hsim]

/-- C7 witness: on a single-stream platform holding a `44100_1_64`
stream, requesting `(44100, 2, 128)` errors, falls back to the similar
stream, and the sound's fields are coerced to `(44100, 1, 64)`. -/
theorem c7_resolution_policy_witness :
    setSoundResolve true c7Reg 44100 2 128
      = .ok (⟨mkLabel 44100 1 64, 0, 44100, 1, 64⟩, c7Reg, 44100, 1, 64) :=
  (c7_resolution_policy true c7Reg 44100 2 128).2.1 .soundFormat
    ⟨mkLabel 44100 1 64, 0, 44100, 1, 64⟩ c7Reg
    (by decide) (by decide)

/-- C8: a file source trimmed to `startTime = 1, stopTime = 2` at
44100 Hz (file long enough: 3 s) produces exactly 44100 frames summed
across all pulls and then end-of-stream is signalled by the short
block, in both the fully pre-decoded (`preBuffer = -1`) and streaming
(`preBuffer = 0`) modes (block size 128: 344 full blocks, then a short
68-frame block). -/
theorem c8_trimmed_file_total_frames :
    drainLoop 128 0 400 c8PreMixer 0 = (44100, true) ∧
    drainLoop 128 0 400 c8StreamMixer 0 = (44100, true) := by
  constructor
  · with_unfolding_all decide
  · with_unfolding_all decide

/-- C9: `getStream` is an idempotent lookup: if a call returns a stream
and registry, calling again with the same key on that registry returns
the *same* stream entry and leaves the registry untouched (no stream is
created and the stored keys are unchanged, since the returned registry
is `reg₁` itself). -/
theorem c9_getStream_idempotent (win32 : Bool) (reg reg₁ : Registry) (r c b : ℤ)
    (e : StreamEntry) (h : getStream win32 reg r c b = .ok (e, reg₁)) :
    getStream win32 reg₁ r c b = .ok (e, reg₁) := by
  simp only [getStream] at h ⊢
  cases hf : reg.entries.find? (fun x => x.label == mkLabel r c b) with
  | some e0 =>
    rw [hf] at h
    cases h
    rw [hf]
  | none =>
    rw [hf] at h
    by_cases hw : (win32 && !reg.entries.isEmpty) = true
    · rw [if_pos hw] at h
      exact Except.noConfusion h
    · rw [if_neg hw] at h
      cases h
      rw [List.find?_append, hf, Option.none_or,
        List.find?_cons_of_pos _ (by simp)]

/-- C9 witness: create the `44100_2_128` stream in an empty registry,
then look it up again. -/
theorem c9_getStream_idempotent_witness :
    getStream false ⟨[⟨mkLabel 44100 2 128, 0, 44100, 2, 128⟩], 1⟩ 44100 2 128
      = .ok (⟨mkLabel 44100 2 128, 0, 44100, 2, 128⟩,
             ⟨[⟨mkLabel 44100 2 128, 0, 44100, 2, 128⟩], 1⟩) :=
  c9_getStream_idempotent false ⟨[], 0⟩ _ 44100 2 128 _ (by decide)

/-- C10: `play` appends the sound to its stream's play list
unconditionally — `_SoundStream.add` (line 159) is a bare append with
no membership check — so after two `play()` calls the sound sits in
the list twice; one callback invocation then pulls it twice (once at
cursor 0 s, once at the already-advanced cursor 1 s), advances the
cursor by two blocks (to 2 s), and sums its samples twice: on the
constant-1 12-frame array the mixed output buffer holds 2 in every
frame — doubled amplitude and doubled cursor advance. -/
theorem c10_play_appends_unconditionally :
    (∀ (m : Mixer) (id : ℕ), (play id m).sounds = m.sounds ++ [id]) ∧
    runLog (callback 4 c10Mixer) = [⟨0, 4, 0⟩, ⟨0, 4, 1⟩] ∧
    runSounds (callback 4 c10Mixer) = [0, 0] ∧
    runT 0 (callback 4 c10Mixer) = 2 ∧
    (∀ i : Fin 4, mixPulls 4 ((runLog (callback 4 c10Mixer)).map
        fun e => arrBlockAt (c10Mixer.store e.id) e.tBefore) (i : ℕ) = 2) := by
  refine ⟨fun m id => rfl, by with_unfolding_all decide, by with_unfolding_all decide,
    by with_unfolding_all decide, ?_⟩
  intro i
  fin_cases i <;> with_unfolding_all decide

end SoundDeviceClaims

